import Mathlib

/-!
Verification of the Predictpix prediction-market backend.

The definitions below are a shallow embedding of the Python source:
`app/core/settlement.py`, `app/core/pi_payments.py`, `app/core/jobs.py`,
`app/api/markets.py`, `app/api/predictions.py`, `app/api/admin.py`.
Monetary values (Python `float` / `decimal.Decimal`) are embedded as
exact rationals `ℚ`; `Decimal.quantize` calls are embedded as explicit
scaling/rounding on `ℚ`; Python exceptions are embedded as `Except`
results (an `Except.error` carries no successor state, matching the
fact that the enclosing database transaction is rolled back or never
committed, so no state change is persisted).

A decisive fact of this source: `models.py` defines `TransactionType`
with only four members (DEPOSIT, WITHDRAWAL, REWARD, PREDICTION), while
`settlement.py` accesses `TransactionType.WINNINGS` (line 116) and
`TransactionType.FEE` (line 134), and `pi_payments.py` accesses
`TransactionType.FEE` (lines 56, 72) and `TransactionType.WINNINGS`
(line 98). In Python, accessing a missing enum member raises
`AttributeError`, so every settlement run aborts at its first
transaction construction, before `db.commit()`. The embedding models
these accesses as errors; the pure computations the code performs
before the crash (pool sums, fee amounts, the first winner's share, the
odds function, the validation chains) are embedded as the total
functions they are.
-/

namespace Predictpix

/-- Embeds `Decimal.quantize(Decimal('1e-d'), rounding=ROUND_DOWN)`:
truncation toward zero at `d` decimal places. -/
def quantizeDown (d : ℕ) (x : ℚ) : ℚ :=
  (if 0 ≤ x then ((⌊x * (10 : ℚ) ^ d⌋ : ℤ) : ℚ) else ((⌈x * (10 : ℚ) ^ d⌉ : ℤ) : ℚ))
    / (10 : ℚ) ^ d

/-- Embeds `Decimal.quantize(Decimal('1e-d'))` with the default context rounding
`ROUND_HALF_EVEN` (also the semantics of Python's builtin `round`):
round to `d` decimal places, ties to the even last digit. -/
def quantizeHalfEven (d : ℕ) (x : ℚ) : ℚ :=
  (let y := x * (10 : ℚ) ^ d
   let f : ℤ := ⌊y⌋
   if y - (f : ℚ) < 1 / 2 then (f : ℚ)
   else if (1 : ℚ) / 2 < y - (f : ℚ) then ((f + 1 : ℤ) : ℚ)
   else if f % 2 = 0 then (f : ℚ) else ((f + 1 : ℤ) : ℚ))
    / (10 : ℚ) ^ d

/-- Embeds `app/models/models.py` `MarketStatus`. -/
inductive MarketStatus
  | PENDING | ACTIVE | CLOSED | SETTLED | CANCELLED
deriving DecidableEq

/-- Embeds `app/models/models.py` `PredictionStatus`. -/
inductive PredictionStatus
  | PENDING | ACTIVE | WON | LOST | CANCELLED
deriving DecidableEq

/-- Embeds `app/models/models.py` `TransactionType`, exactly as defined
there (models.py lines 35-39): only these four members exist. The
settlement code's accesses to `TransactionType.WINNINGS`,
`TransactionType.FEE`, `TransactionType.REFUND` and
`TransactionType.MARKET_CREATION` name members this enum does not have
and raise `AttributeError` at runtime; the embedding represents those
accesses as `Except.error` results. -/
inductive TransactionType
  | DEPOSIT | WITHDRAWAL | REWARD | PREDICTION
deriving DecidableEq

/-- Embeds `app/models/models.py` `Prediction` (fields used by the settlement
and reward code). `potential_winnings` is a nullable column. -/
structure Prediction where
  id : ℕ
  user_id : ℕ
  amount : ℚ
  predicted_outcome : String
  status : PredictionStatus
  potential_winnings : Option ℚ
deriving DecidableEq

/-- Embeds `app/models/models.py` `PredictionMarket` (fields used by the
settlement and reward code). `correct_outcome` is a nullable string
column. -/
structure Market where
  id : ℕ
  creator_id : ℕ
  status : MarketStatus
  total_pool : ℚ
  yes_pool : ℚ
  no_pool : ℚ
  correct_outcome : Option String
  platform_fee_percentage : ℚ
  creator_fee_percentage : ℚ
deriving DecidableEq

/-! ## Settlement engine (`app/core/settlement.py`)

`MarketSettlement.process_settlement` performs, in order: grouping the
predictions by outcome, summing the winning pool (lines 26-29),
computing the fees and the distributable pool (lines 32-33), then —
when `winning_pool > 0` — the winner loop, whose first iteration
computes `contribution_ratio` and the quantized winnings (lines 60-61)
and mutates the prediction (lines 64-65) before
`_create_winning_transaction` evaluates `TransactionType.WINNINGS`
(line 116), raising `AttributeError`. When the winning pool is not
positive the loop is skipped, the losing predictions are updated in
session, and `_distribute_fees` computes the fee amounts (lines 88-89)
before `_create_fee_transaction` evaluates `TransactionType.FEE`
(line 134), raising `AttributeError`. Either way the exception
propagates before `db.commit()`: no transaction row, prediction update
or balance change is ever persisted. The pure computations that do
execute are embedded below as total functions; the run itself is
embedded as the error it ends in. -/

/-- Embeds `MarketSettlement.process_settlement` lines 26-29: the winning pool
is the sum of the amounts of the predictions grouped under the market's
`correct_outcome` key (grouping by `predicted_outcome` and then reading
one key is the same as filtering on that key, in the original order). -/
def winningPool (preds : List Prediction) (co : String) : ℚ :=
  ((preds.filter (fun p => p.predicted_outcome = co)).map Prediction.amount).sum

/-- Embeds `MarketSettlement.__init__` + `process_settlement` line 32:
`total_fees = total_pool * (platform_fee + creator_fee)` with each fee
the percentage divided by 100. -/
def totalFees (m : Market) : ℚ :=
  m.total_pool * (m.platform_fee_percentage / 100 + m.creator_fee_percentage / 100)

/-- Embeds `MarketSettlement._process_winning_predictions` lines 60-61:
`winnings = (distributable_pool * (amount / winning_pool)).quantize(Decimal('0.00000001'), rounding=ROUND_DOWN)`,
i.e. rounded DOWN at 8 decimal places. Executed for the first winning
prediction before the engine's `AttributeError`. -/
def winnerShare (distributable wp amount : ℚ) : ℚ :=
  quantizeDown 8 (distributable * (amount / wp))

/-- Embeds `MarketSettlement.process_settlement` for a market whose
`correct_outcome` is the string `co`: under the `winning_pool > 0`
guard (line 36) the run ends in the `AttributeError` on the missing
`TransactionType.WINNINGS` member raised while creating the first
winning transaction (line 68 → 116); otherwise it ends in the
`AttributeError` on the missing `TransactionType.FEE` member raised
while creating the platform-fee transaction (line 92 → 134). No run
reaches `db.commit()`. -/
def process_settlement (m : Market) (co : String) (preds : List Prediction) :
    Except String Unit :=
  if 0 < winningPool preds co then
    Except.error "AttributeError: WINNINGS"
  else
    Except.error "AttributeError: FEE"

/-- Embeds `settlement.process_market_settlement`: raises `ValueError` when the
market's `correct_outcome` is falsy (`None` or the empty string),
otherwise runs the settlement (which always ends in the enum
`AttributeError`). -/
def process_market_settlement (m : Market) (preds : List Prediction) :
    Except String Unit :=
  match m.correct_outcome with
  | none => Except.error "Market must have a correct outcome set"
  | some co =>
    if co = "" then Except.error "Market must have a correct outcome set"
    else process_settlement m co preds

/-! ## Reward calculator and reward processing (`app/core/pi_payments.py`) -/

/-- Embeds `RewardCalculator.calculate_winner_share` (a pure function with no
enum access): proportional share of the total pool after fees,
quantized at 6 decimal places with the `Decimal` context's default
`ROUND_HALF_EVEN`, together with the reward multiplier. The winning
pool here is read from the market's `yes_pool` or `no_pool` column
(the string comparison `correct_outcome == "YES"` is false when
`correct_outcome` is `None`). -/
def calculate_winner_share (p : Prediction) (m : Market) : ℚ × ℚ :=
  let total_pool := m.total_pool
  let fee_multiplier := (100 - (m.platform_fee_percentage + m.creator_fee_percentage)) / 100
  let winning_pool := if m.correct_outcome = some "YES" then m.yes_pool else m.no_pool
  if winning_pool = 0 then (0, 0)
  else
    let winner_share := (p.amount / winning_pool) * total_pool * fee_multiplier
    let reward_multiplier := if 0 < p.amount then winner_share / p.amount else 0
    (quantizeHalfEven 6 winner_share, reward_multiplier)

/-- Embeds `pi_payments.process_market_rewards`: raises `ValueError` unless the
market status is `"settled"` and `correct_outcome` is truthy; past that
guard it computes the platform fee `Decimal` (line 53) and then
constructs the platform-fee `Transaction`, whose
`type=TransactionType.FEE` keyword (line 56) accesses an enum member
`models.py` does not define — `AttributeError` before any transaction,
reward or prediction update exists. -/
def process_market_rewards (m : Market) (preds : List Prediction) :
    Except String Unit :=
  if m.status ≠ MarketStatus.SETTLED ∨ m.correct_outcome = none
      ∨ m.correct_outcome = some "" then
    Except.error "Market must be settled with a correct outcome"
  else
    Except.error "AttributeError: FEE"

/-! ## Division-checked variants

Python raises `ZeroDivisionError`/`DivisionByZero` on a zero divisor,
while `ℚ` division is total. The `safeDiv`-based variants below place
an explicit check at every division the Python settlement code
executes; proving them equal to `some` of the total versions shows the
source never divides by zero. -/

/-- Division that fails on a zero divisor, as in Python. -/
def safeDiv (a b : ℚ) : Option ℚ := if b = 0 then none else some (a / b)

/-- Embeds `MarketSettlement.process_settlement` with its one executed
division checked: under the `winning_pool > 0` guard of line 36 the
loop body computes the first winner's
`contribution_ratio = amount / winning_pool` (line 60) before the
`AttributeError` at line 116 ends the run; without the guard no
division runs before the `AttributeError` at line 134. -/
def process_settlement_checked (m : Market) (co : String) (preds : List Prediction) :
    Option (Except String Unit) :=
  if 0 < winningPool preds co then
    match preds.filter (fun p => p.predicted_outcome = co) with
    | [] => some (Except.error "AttributeError: FEE")
    | p :: _ =>
      (safeDiv p.amount (winningPool preds co)).map
        (fun _ => Except.error "AttributeError: WINNINGS")
  else
    some (Except.error "AttributeError: FEE")

/-- Embeds `RewardCalculator.calculate_winner_share` with both of its divisions
checked: `prediction_amount / winning_pool` runs only after the
`winning_pool == 0` early return, and `winner_share / prediction_amount`
only under the `prediction_amount > 0` guard. -/
def calculate_winner_share_checked (p : Prediction) (m : Market) : Option (ℚ × ℚ) :=
  let fee_multiplier := (100 - (m.platform_fee_percentage + m.creator_fee_percentage)) / 100
  let winning_pool := if m.correct_outcome = some "YES" then m.yes_pool else m.no_pool
  if winning_pool = 0 then some (0, 0)
  else do
    let r ← safeDiv p.amount winning_pool
    let winner_share := r * m.total_pool * fee_multiplier
    let reward_multiplier ←
      if 0 < p.amount then safeDiv winner_share p.amount else pure 0
    pure (quantizeHalfEven 6 winner_share, reward_multiplier)

/-! ## Market resolution endpoint (`app/api/markets.py`) and lifecycle job (`app/core/jobs.py`) -/

/-- The state the resolution endpoint acts on: one market and its
predictions. An `Except.error` result models an HTTP error response
(or an exception caught by the endpoint's `db.rollback()` handler):
nothing is committed, so it carries no successor state. -/
structure ResolveState where
  market : Market
  predictions : List Prediction
deriving DecidableEq

/-- Embeds `markets.resolve_market`: rejects an outcome other than "YES"/"NO"
(400), rejects a market not in CLOSED status (400); otherwise sets
status SETTLED and the correct outcome in session, then runs
`process_market_rewards` — whose exception (in this source always the
enum `AttributeError`) is caught, the session rolled back and a 500
returned, so nothing is committed. The success branch mirrors the
source's commit but is unreachable, since `process_market_rewards`
never returns normally. -/
def resolve_market (s : ResolveState) (correct_outcome : String) :
    Except String ResolveState :=
  if ¬ (correct_outcome = "YES" ∨ correct_outcome = "NO") then
    Except.error "Outcome must be either YES or NO"
  else if s.market.status ≠ MarketStatus.CLOSED then
    Except.error "Market must be closed before resolution"
  else
    match process_market_rewards
        { s.market with status := MarketStatus.SETTLED
                        correct_outcome := some correct_outcome } s.predictions with
    | Except.error e => Except.error e
    | Except.ok _ =>
        Except.ok
          { market := { s.market with status := MarketStatus.SETTLED
                                      correct_outcome := some correct_outcome }
            predictions := s.predictions }

/-- The per-market step of `jobs.resolve_due_markets` (the job's query
already filters `status == CLOSED`, `resolution_time <= now` and
`correct_outcome` non-null): run `process_market_settlement`, then set
the market status to SETTLED and commit. The job has no per-market
exception handler, so the settlement error propagates and the commit
never runs; the success branch is unreachable in this source. -/
def resolve_due_market_step (m : Market) (preds : List Prediction) :
    Except String Market :=
  match process_market_settlement m preds with
  | Except.error e => Except.error e
  | Except.ok _ => Except.ok { m with status := MarketStatus.SETTLED }

/-! ## Prediction placement (`app/api/predictions.py`, `app/api/markets.py`) -/

/-- Embeds `app/core/config.py` `MIN_PREDICTION_AMOUNT`. -/
def MIN_PREDICTION_AMOUNT : ℚ := 1
/-- Embeds `app/core/config.py` `MAX_PREDICTION_AMOUNT`. -/
def MAX_PREDICTION_AMOUNT : ℚ := 1000

/-- The state touched by prediction placement: the market and the
betting user's balance. -/
structure PlaceState where
  market : Market
  userBalance : ℚ
deriving DecidableEq

/-- Embeds `predictions.create_prediction`: validates market ACTIVE, amount in
bounds and balance sufficient, then deducts the balance and increments
`total_pool` unconditionally but `yes_pool`/`no_pool` only when the
submitted `predicted_outcome` string equals the lowercase `'yes'` /
`'no'` respectively (`predicted_outcome` is an unvalidated free string
in `PredictionCreate`). This path commits: it uses only the
`TransactionType.PREDICTION` member, which exists. -/
def create_prediction (s : PlaceState) (amount : ℚ) (predicted_outcome : String) :
    Except String PlaceState :=
  if s.market.status ≠ MarketStatus.ACTIVE then
    Except.error "Market is not active"
  else if amount < MIN_PREDICTION_AMOUNT then
    Except.error "Minimum prediction amount"
  else if MAX_PREDICTION_AMOUNT < amount then
    Except.error "Maximum prediction amount"
  else if s.userBalance < amount then
    Except.error "Insufficient balance"
  else
    Except.ok
      { market := { s.market with
          total_pool := s.market.total_pool + amount
          yes_pool := s.market.yes_pool + (if predicted_outcome = "yes" then amount else 0)
          no_pool := s.market.no_pool + (if predicted_outcome = "no" then amount else 0) }
        userBalance := s.userBalance - amount }

/-- Embeds `markets.place_prediction`: takes a boolean outcome, requires the
market ACTIVE (the `end_time` check is elided — it does not touch the
pools), and updates `yes_pool` or `no_pool` together with `total_pool`. -/
def place_prediction (m : Market) (predicted_outcome : Bool) (amount : ℚ) :
    Except String Market :=
  if m.status ≠ MarketStatus.ACTIVE then
    Except.error "Market is not active"
  else
    Except.ok
      { m with
        yes_pool := m.yes_pool + (if predicted_outcome then amount else 0)
        no_pool := m.no_pool + (if predicted_outcome then 0 else amount)
        total_pool := m.total_pool + amount }

/-! ## Market rejection (`app/api/markets.py`, `app/api/admin.py`) -/

/-- Embeds `markets.reject_market`: requires PENDING, sets the market status to
CANCELLED and records rejection metadata. It does not touch the
market's predictions or any user balance. -/
def reject_market (m : Market) (preds : List Prediction) :
    Except String (Market × List Prediction) :=
  if m.status ≠ MarketStatus.PENDING then
    Except.error "Only pending markets can be rejected"
  else
    Except.ok ({ m with status := MarketStatus.CANCELLED }, preds)

/-- Embeds `admin.approve_market` with `approval.approved = False`: requires
PENDING, sets CANCELLED, then iterates the market's predictions to
refund them. For the first prediction the loop body evaluates
`PredictionStatus.CANCELLED` — a name `app/api/admin.py` never imports —
so Python raises `NameError`; the exception propagates out of the
endpoint before `db.commit()`, so no change is persisted. With no
predictions the loop body never runs and the rejection commits. -/
def admin_reject_market (m : Market) (preds : List Prediction) :
    Except String (Market × List Prediction) :=
  if m.status ≠ MarketStatus.PENDING then
    Except.error "Cannot modify market in status"
  else
    match preds with
    | [] => Except.ok ({ m with status := MarketStatus.CANCELLED }, [])
    | _ :: _ => Except.error "NameError: name PredictionStatus is not defined"

/-! ## Odds (`markets.calculate_market_odds`) -/

/-- The dictionary returned by `calculate_market_odds`. -/
structure OddsOut where
  yes_odds : ℚ
  no_odds : ℚ
  yes_prob : ℚ
  no_prob : ℚ
deriving DecidableEq

/-- Embeds `markets.calculate_market_odds`: even odds for an empty pool,
otherwise implied probabilities `side_pool / total_pool` (as a
percentage) and decimal odds `1 / prob` (0 for a side with probability
0), all rounded to 2 decimal places with Python's `round`
(half-to-even). -/
def calculate_market_odds (yes_pool no_pool : ℚ) : OddsOut :=
  let total_pool := yes_pool + no_pool
  if total_pool = 0 then
    { yes_odds := 2, no_odds := 2, yes_prob := 50, no_prob := 50 }
  else
    let yes_prob := yes_pool / total_pool
    let no_prob := no_pool / total_pool
    let yes_odds := if 0 < yes_prob then 1 / yes_prob else 0
    let no_odds := if 0 < no_prob then 1 / no_prob else 0
    { yes_odds := quantizeHalfEven 2 yes_odds
      no_odds := quantizeHalfEven 2 no_odds
      yes_prob := quantizeHalfEven 2 (yes_prob * 100)
      no_prob := quantizeHalfEven 2 (no_prob * 100) }

/-! ## Market creation validation (`markets.create_market`) -/

/-- The validation chain of `markets.create_market`, on timestamps in
seconds: end time in the future, resolution strictly after end, at
least `timedelta(hours=1)` between them, and at most 5 PENDING markets
per creator. The market row is inserted only after every check has
passed, so an error here means no market is persisted. -/
def create_market_check (now end_time resolution_time : ℤ) (pending_count : ℕ) :
    Except String Unit :=
  if end_time ≤ now then
    Except.error "Market end time must be in the future"
  else if resolution_time ≤ end_time then
    Except.error "Resolution time must be after market end time"
  else if resolution_time - end_time < 3600 then
    Except.error "Resolution time must be at least 1:00:00 after end time"
  else if 5 ≤ pending_count then
    Except.error "You cannot have more than 5 pending markets"
  else
    Except.ok ()

section

/- Batteries marks the `Rat` arithmetic operations `@[irreducible]` as an
elaboration-performance hint. They are made semireducible locally so that
`decide` can evaluate the embedded settlement arithmetic on concrete
inputs; the kernel is unaffected by reducibility hints. -/
attribute [local semireducible] Rat.mul Rat.add Rat.sub Rat.inv Rat.ofScientific

/-! ## Concrete fixtures (the worked scenario of the specification):
market with `total_pool=1000`, `yes_pool=600`, `no_pool=400`,
`platform_fee=2`, `creator_fee=1`, `correct_outcome="YES"`, two YES
predictions of 400 and 200 and one NO prediction of 400. -/

/-- The scenario market, in CLOSED state with the outcome recorded. -/
def exMarket : Market :=
  { id := 1, creator_id := 7, status := MarketStatus.CLOSED
    total_pool := 1000, yes_pool := 600, no_pool := 400
    correct_outcome := some "YES"
    platform_fee_percentage := 2, creator_fee_percentage := 1 }

/-- YES prediction of 400. -/
def exPredA : Prediction :=
  { id := 11, user_id := 21, amount := 400, predicted_outcome := "YES"
    status := PredictionStatus.PENDING, potential_winnings := none }

/-- YES prediction of 200. -/
def exPredB : Prediction :=
  { id := 12, user_id := 22, amount := 200, predicted_outcome := "YES"
    status := PredictionStatus.PENDING, potential_winnings := none }

/-- NO prediction of 400. -/
def exPredC : Prediction :=
  { id := 13, user_id := 23, amount := 400, predicted_outcome := "NO"
    status := PredictionStatus.PENDING, potential_winnings := none }

/-- The scenario's prediction set. -/
def exPreds : List Prediction := [exPredA, exPredB, exPredC]

/-- The scenario market after the endpoint has marked it SETTLED. -/
def exMarketSettled : Market := { exMarket with status := MarketStatus.SETTLED }

/-- A fresh ACTIVE market with empty pools, and a bettor holding 100. -/
def exFreshActive : PlaceState :=
  { market := { exMarket with
      status := MarketStatus.ACTIVE
      total_pool := 0
      yes_pool := 0
      no_pool := 0
      correct_outcome := none }
    userBalance := 100 }

/-- The scenario market in PENDING state (awaiting admin approval). -/
def exMarketPending : Market := { exMarket with status := MarketStatus.PENDING }

example : quantizeDown 8 ((970 : ℚ) * (400 / 600)) = 64666666666 / 100000000 := by decide

example : quantizeHalfEven 6 ((1940 : ℚ) / 3) = 646666667 / 1000000 := by decide

example : calculate_winner_share exPredA exMarket = (646666667 / 1000000, 97 / 60) := by
  decide

/-! ## Auxiliary lemmas -/

lemma quantizeDown_le (d : ℕ) {x : ℚ} (hx : 0 ≤ x) : quantizeDown d x ≤ x := by
  have hs : (0 : ℚ) < (10 : ℚ) ^ d := by positivity
  rw [quantizeDown, if_pos hx, div_le_iff₀ hs]
  exact Int.floor_le (x * (10 : ℚ) ^ d)

lemma quantizeHalfEven_zero (d : ℕ) : quantizeHalfEven d 0 = 0 := by
  rw [quantizeHalfEven]
  norm_num

/-- C1 (code bug): the settlement engine cannot produce the winner-share
and fee transactions whose amounts the claim sums: `models.py` defines
no `TransactionType.WINNINGS` or `TransactionType.FEE` member, so at
the worked scenario (positive winning pool) the engine raises
`AttributeError` while creating the first winning transaction, and with
no predictions it raises `AttributeError` while creating the
platform-fee transaction — in both cases before any transaction row or
balance change exists, so the claimed sum is never realized. -/
theorem settlement_crashes_before_any_transaction :
    0 < winningPool exPreds "YES"
    ∧ process_settlement exMarket "YES" exPreds
        = Except.error "AttributeError: WINNINGS"
    ∧ process_settlement exMarket "YES" []
        = Except.error "AttributeError: FEE"
    ∧ process_market_settlement exMarket exPreds
        = Except.error "AttributeError: WINNINGS" := by
  refine ⟨by decide, rfl, rfl, rfl⟩

lemma resolve_market_not_closed (s : ResolveState) (co : String)
    (h : s.market.status ≠ MarketStatus.CLOSED) :
    ∃ e, resolve_market s co = Except.error e := by
  rw [resolve_market]
  by_cases hco : co = "YES" ∨ co = "NO"
  · rw [if_neg (not_not_intro hco), if_pos h]
    exact ⟨_, rfl⟩
  · rw [if_pos hco]
    exact ⟨_, rfl⟩

lemma resolve_market_ok_elim (s : ResolveState) (co : String) (s' : ResolveState)
    (h : resolve_market s co = Except.ok s') :
    s.market.status = MarketStatus.CLOSED ∧ (co = "YES" ∨ co = "NO")
      ∧ s'.market.status = MarketStatus.SETTLED := by
  rw [resolve_market] at h
  by_cases hco : co = "YES" ∨ co = "NO"
  · rw [if_neg (not_not_intro hco)] at h
    by_cases hst : s.market.status = MarketStatus.CLOSED
    · rw [if_neg (not_not_intro hst)] at h
      have hpr : process_market_rewards
          ({ s.market with status := MarketStatus.SETTLED
                           correct_outcome := some co }) s.predictions
            = Except.error "AttributeError: FEE" := by
        rw [process_market_rewards, if_neg]
        rcases hco with rfl | rfl <;> simp
      rw [hpr] at h
      exact Except.noConfusion h
    · rw [if_pos hst] at h
      exact Except.noConfusion h
  · rw [if_pos hco] at h
    exact Except.noConfusion h

/-- C2: whenever the market's status is not CLOSED (in particular when
it is already SETTLED after a first successful settlement), invoking the
settle endpoint fails with an error and no state change (an error result
here carries no state: the endpoint rolls back); settlement returns a
new state only when the status was CLOSED and the submitted outcome is
"YES" or "NO", and the resulting market is SETTLED, so an immediately
repeated settle call fails. -/
theorem resolve_market_rejects_unless_closed (s : ResolveState) (co : String) :
    (s.market.status ≠ MarketStatus.CLOSED → ∃ e, resolve_market s co = Except.error e)
    ∧ (∀ s', resolve_market s co = Except.ok s' →
        s.market.status = MarketStatus.CLOSED ∧ (co = "YES" ∨ co = "NO")
          ∧ s'.market.status = MarketStatus.SETTLED)
    ∧ (∀ s' co', resolve_market s co = Except.ok s' →
        ∃ e, resolve_market s' co' = Except.error e) := by
  refine ⟨resolve_market_not_closed s co,
    fun s' h => resolve_market_ok_elim s co s' h, ?_⟩
  intro s' co' h
  apply resolve_market_not_closed
  rw [(resolve_market_ok_elim s co s' h).2.2]
  decide

/-- Witness for C2: settling an already-SETTLED market is rejected. -/
theorem resolve_market_rejects_unless_closed_witness :
    ∃ e, resolve_market ⟨exMarketSettled, exPreds⟩ "YES" = Except.error e :=
  (resolve_market_rejects_unless_closed ⟨exMarketSettled, exPreds⟩ "YES").1 (by decide)

lemma process_settlement_checked_eq (m : Market) (co : String) (preds : List Prediction) :
    process_settlement_checked m co preds = some (process_settlement m co preds) := by
  rw [process_settlement_checked, process_settlement]
  by_cases hwp : 0 < winningPool preds co
  · rw [if_pos hwp, if_pos hwp]
    cases hfil : preds.filter (fun p => p.predicted_outcome = co) with
    | nil =>
      exfalso
      rw [winningPool, hfil] at hwp
      simp at hwp
    | cons p t =>
      simp only [safeDiv, if_neg (ne_of_gt hwp), Option.map_some']
  · rw [if_neg hwp, if_neg hwp]

lemma calculate_winner_share_checked_eq (p : Prediction) (m : Market) :
    calculate_winner_share_checked p m = some (calculate_winner_share p m) := by
  simp only [calculate_winner_share_checked, calculate_winner_share]
  by_cases hwp : (if m.correct_outcome = some "YES" then m.yes_pool else m.no_pool) = 0
  · rw [if_pos hwp, if_pos hwp]
  · rw [if_neg hwp, if_neg hwp, safeDiv, if_neg hwp]
    simp only [Option.bind_eq_bind, Option.some_bind]
    by_cases ha : 0 < p.amount
    · rw [if_pos ha, if_pos ha, safeDiv, if_neg (ne_of_gt ha)]
      rfl
    · rw [if_neg ha, if_neg ha]
      rfl

/-- C10: the settlement code never divides by zero. Replacing every
division the Python code executes by a checked division that fails on a
zero divisor, `process_settlement` (whose only division — the first
winner's contribution ratio, line 60 — runs only under the
`winning_pool > 0` guard of line 36) and
`RewardCalculator.calculate_winner_share` (which returns early when
`winning_pool == 0` and guards the multiplier by `prediction_amount >
0`) always succeed and agree with the total embedding; and when the
winning pool is zero `calculate_winner_share` returns reward amount 0
and multiplier 0 instead of failing. -/
theorem settlement_division_safe (m : Market) (co : String)
    (preds : List Prediction) (p : Prediction) :
    process_settlement_checked m co preds = some (process_settlement m co preds)
    ∧ calculate_winner_share_checked p m = some (calculate_winner_share p m)
    ∧ ((if m.correct_outcome = some "YES" then m.yes_pool else m.no_pool) = 0 →
        calculate_winner_share p m = (0, 0)) := by
  refine ⟨process_settlement_checked_eq m co preds,
    calculate_winner_share_checked_eq p m, ?_⟩
  intro hwp
  rw [calculate_winner_share]
  simp [hwp]

/-- Witness for C10: a market with an empty NO pool and outcome NO
yields a zero reward without failing. -/
theorem settlement_division_safe_witness :
    calculate_winner_share exPredA
      { exMarket with correct_outcome := some "NO", no_pool := 0 } = (0, 0) :=
  (settlement_division_safe
      { exMarket with correct_outcome := some "NO", no_pool := 0 }
      "NO" exPreds exPredA).2.2 (by decide)

/-- C3 counterexample: the share computation the settlement engine
executes (line 61, run for the first winning prediction: distributable
`1000 * 0.97 = 970`, winning pool 600, amount 400) yields
`646.66666666` — quantized at 8 decimal places — and not the claimed
6-decimal-place `646.666666`; the reward-calculator path
(`calculate_winner_share`) yields `646.666667`, also not `646.666666`. -/
theorem settlement_share_six_decimals_counterexample :
    winnerShare 970 600 400 ≠ 646666666 / 1000000
    ∧ (calculate_winner_share exPredA exMarket).1 ≠ 646666666 / 1000000 := by
  refine ⟨by decide, by decide⟩

/-- C3 amended: the winner-share computation the settlement engine
executes (settlement.py line 61) rounds DOWN at exactly 8 decimal
places and never exceeds the exact proportional share; at the worked
scenario the first winner's share is computed as `646.66666666`. The
separate reward-calculator path (`pi_payments.calculate_winner_share`)
quantizes at 6 decimal places with round-half-even, which rounds up
here to `646.666667`. No share or fee transaction is persisted, because
the engine raises `AttributeError` on the missing
`TransactionType.WINNINGS` member right after computing the first
share. -/
theorem settlement_share_rounded_down_8dp :
    winnerShare 970 600 400 = 64666666666 / 100000000
    ∧ (∀ d wp a : ℚ, 0 ≤ d * (a / wp) → winnerShare d wp a ≤ d * (a / wp))
    ∧ (calculate_winner_share exPredA exMarket).1 = 646666667 / 1000000
    ∧ process_settlement exMarket "YES" exPreds
        = Except.error "AttributeError: WINNINGS" := by
  refine ⟨by decide, ?_, by decide, rfl⟩
  intro d wp a h
  exact quantizeDown_le 8 h

/-- Witness for the amended C3: a concrete share never rounds up. -/
theorem settlement_share_rounded_down_8dp_witness :
    winnerShare 970 600 400 ≤ 970 * (400 / 600) :=
  settlement_share_rounded_down_8dp.2.1 970 600 400 (by decide)

/-- C4 (code bug): none of the claimed per-winner effects ever happens.
On the worked scenario — which has the winning prediction `exPredA` —
the settlement engine raises `AttributeError` on the missing
`TransactionType.WINNINGS` member while creating the first winning
transaction (before the balance credit at settlement.py line 71), and
`process_market_rewards` raises `AttributeError` on the missing
`TransactionType.FEE` member (pi_payments.py line 56) before creating
any reward or transaction; neither run commits. -/
theorem winner_effects_never_performed :
    exPredA ∈ exPreds
    ∧ exPredA.predicted_outcome = "YES"
    ∧ process_settlement exMarketSettled "YES" exPreds
        = Except.error "AttributeError: WINNINGS"
    ∧ process_market_rewards exMarketSettled exPreds
        = Except.error "AttributeError: FEE" := by
  refine ⟨by decide, rfl, rfl, rfl⟩

/-- C5 (code bug): `create_prediction` credits `total_pool`
unconditionally but compares the outcome against the lowercase strings
`'yes'`/`'no'`, so placing a bet with the documented outcome value
`"YES"` (`models.py`: «Will be either "YES" or "NO"», the value the
settlement engine matches on) on a fresh ACTIVE market leaves
`yes_pool + no_pool = 0` while `total_pool = 10`, breaking the
`yes_pool + no_pool == total_pool` invariant; the lowercase spelling
`"yes"` keeps it. -/
theorem pool_invariant_breaks_on_uppercase_outcome :
    ((create_prediction exFreshActive 10 "YES").toOption.map
        (fun s' => (s'.market.yes_pool + s'.market.no_pool, s'.market.total_pool))
      = some (0, 10))
    ∧ ((0 : ℚ) ≠ 10)
    ∧ ((create_prediction exFreshActive 10 "yes").toOption.map
        (fun s' => (s'.market.yes_pool + s'.market.no_pool, s'.market.total_pool))
      = some (10, 10)) := by
  refine ⟨by decide, by decide, by decide⟩

/-- C6 (code bug): settling a market on which no prediction matches the
correct outcome does not complete. The winner loop is skipped (the
winning pool is 0), and `_distribute_fees` then evaluates
`TransactionType.FEE`, a member `models.py` does not define, so the job
step aborts with `AttributeError`: no fee transaction is created, the
predictions are not durably marked LOST, and the market never becomes
SETTLED; the resolve endpoint on the same market fails the same way. -/
theorem settlement_with_no_winner_crashes :
    winningPool [exPredC] "YES" = 0
    ∧ resolve_due_market_step exMarket [exPredC]
        = Except.error "AttributeError: FEE"
    ∧ resolve_market ⟨exMarket, [exPredC]⟩ "YES"
        = Except.error "AttributeError: FEE" := by
  refine ⟨by decide, rfl, rfl⟩

/-- C7 (code bug): rejecting a PENDING market refunds nothing.
`markets.reject_market` returns the predictions untouched (status still
PENDING, no balance credit), and the refund loop of
`admin.approve_market` (the rejection branch) aborts with a `NameError`
because `PredictionStatus` is not imported in `app/api/admin.py`, so
its session is never committed. -/
theorem reject_market_refunds_nothing :
    (reject_market exMarketPending [exPredA]
      = Except.ok ({ exMarketPending with status := MarketStatus.CANCELLED }, [exPredA]))
    ∧ exPredA.status ≠ PredictionStatus.CANCELLED
    ∧ (admin_reject_market exMarketPending [exPredA]
        = Except.error "NameError: name PredictionStatus is not defined") := by
  refine ⟨rfl, by decide, rfl⟩

/-- C8: the odds computation returns even odds 2.0/2.0 with
probabilities 50/50 when both pools are zero, and otherwise returns
each side's implied probability `side_pool/total_pool` as a percentage
and decimal odds `1/probability` — 0 when that side's probability is 0
— each rounded at 2 decimal places. -/
theorem calculate_market_odds_spec (yp np : ℚ) (hy : 0 ≤ yp) (hn : 0 ≤ np) :
    (yp + np = 0 → calculate_market_odds yp np
        = { yes_odds := 2, no_odds := 2, yes_prob := 50, no_prob := 50 })
    ∧ (yp + np ≠ 0 →
        calculate_market_odds yp np
          = { yes_odds := if yp / (yp + np) = 0 then 0
                else quantizeHalfEven 2 (1 / (yp / (yp + np)))
              no_odds := if np / (yp + np) = 0 then 0
                else quantizeHalfEven 2 (1 / (np / (yp + np)))
              yes_prob := quantizeHalfEven 2 (yp / (yp + np) * 100)
              no_prob := quantizeHalfEven 2 (np / (yp + np) * 100) }) := by
  constructor
  · intro h
    rw [calculate_market_odds, if_pos h]
  · intro h
    have htpos : 0 < yp + np := lt_of_le_of_ne (by linarith) (Ne.symm h)
    rw [calculate_market_odds, if_neg h]
    have hodds : ∀ x : ℚ, 0 ≤ x →
        quantizeHalfEven 2 (if 0 < x / (yp + np) then 1 / (x / (yp + np)) else 0)
          = if x / (yp + np) = 0 then 0
            else quantizeHalfEven 2 (1 / (x / (yp + np))) := by
      intro x hx
      by_cases h0 : x / (yp + np) = 0
      · rw [if_pos h0, h0]
        simp [quantizeHalfEven_zero]
      · have hpos : 0 < x / (yp + np) :=
          lt_of_le_of_ne (div_nonneg hx htpos.le) (Ne.symm h0)
        rw [if_neg h0, if_pos hpos]
    simp only [OddsOut.mk.injEq]
    exact ⟨hodds yp hy, hodds np hn, trivial, trivial⟩

/-- Witness for C8: the empty-pool edge case. -/
theorem calculate_market_odds_spec_witness :
    calculate_market_odds 0 0
      = { yes_odds := 2, no_odds := 2, yes_prob := 50, no_prob := 50 } :=
  (calculate_market_odds_spec 0 0 (by decide) (by decide)).1 (by decide)

/-- C9: market creation rejects, before anything is persisted, every
request whose resolution time is earlier than the end time plus one
hour (3600 seconds), and passes validation only when
`resolution_time ≥ end_time + 1 hour`. -/
theorem create_market_resolution_delay (now e r : ℤ) (pc : ℕ) :
    (r < e + 3600 → ∃ msg, create_market_check now e r pc = Except.error msg)
    ∧ (create_market_check now e r pc = Except.ok () → e + 3600 ≤ r) := by
  constructor
  · intro h
    rw [create_market_check]
    by_cases h1 : e ≤ now
    · rw [if_pos h1]
      exact ⟨_, rfl⟩
    · rw [if_neg h1]
      by_cases h2 : r ≤ e
      · rw [if_pos h2]
        exact ⟨_, rfl⟩
      · rw [if_neg h2, if_pos (by linarith)]
        exact ⟨_, rfl⟩
  · intro h
    rw [create_market_check] at h
    by_cases h1 : e ≤ now
    · rw [if_pos h1] at h
      exact Except.noConfusion h
    · rw [if_neg h1] at h
      by_cases h2 : r ≤ e
      · rw [if_pos h2] at h
        exact Except.noConfusion h
      · rw [if_neg h2] at h
        by_cases h3 : r - e < 3600
        · rw [if_pos h3] at h
          exact Except.noConfusion h
        · linarith [not_lt.mp h3]

/-- Witness for C9: a resolution time 10 seconds after the end time is
rejected. -/
theorem create_market_resolution_delay_witness :
    ∃ msg, create_market_check 0 100 110 0 = Except.error msg :=
  (create_market_resolution_delay 0 100 110 0).1 (by decide)

end

end Predictpix
